import Mathlib

/-!
Shallow embedding of the decomp-agent verification scoring engine and job
orchestration subsystem (`src/decomp_agent`), together with theorems that
check the natural-language specification against the code.

Conventions used throughout:
* Python floats are modelled as exact rationals (`ℚ`);
* machine integers and row ids as `ℕ`;
* SQL tables as lists of records, and SQL queries as list operations;
* code that can raise returns `Except`;
* timestamps are abstract `ℕ` clock values.
-/

/- ------------------------------------------------------------------ -/
/- Data model: agent/loop.py, models/db.py                            -/
/- ------------------------------------------------------------------ -/

/-- AgentResult dataclass (agent/loop.py lines 24-39), with the dataclass
field defaults. -/
structure AgentResult where
  matched : Bool := false
  best_match_percent : ℚ := 0
  iterations : ℕ := 0
  total_tokens : ℕ := 0
  input_tokens : ℕ := 0
  output_tokens : ℕ := 0
  cached_tokens : ℕ := 0
  elapsed_seconds : ℚ := 0
  final_code : Option String := none
  error : Option String := none
  termination_reason : String := ""
deriving Repr, DecidableEq

/-- Function table row (models/db.py lines 29-42).  Named `FunctionRow`
because `Function` is taken by Mathlib's root namespace. -/
structure FunctionRow where
  id : ℕ := 0
  name : String := ""
  address : ℕ := 0
  size : ℕ := 0
  source_file : String := ""
  library : String := ""
  initial_match_pct : ℚ := 0
  current_match_pct : ℚ := 0
  status : String := "pending"
  attempts : ℕ := 0
  matched_at : Option ℕ := none
deriving Repr, DecidableEq

/-- Attempt table row (models/db.py lines 45-60).  The table as defined in
the source has no cost column. -/
structure Attempt where
  function_id : ℕ := 0
  matched : Bool := false
  best_match_pct : ℚ := 0
  iterations : ℕ := 0
  total_tokens : ℕ := 0
  input_tokens : ℕ := 0
  output_tokens : ℕ := 0
  cached_tokens : ℕ := 0
  elapsed_seconds : ℚ := 0
  termination_reason : String := ""
  final_code : Option String := none
  error : Option String := none
deriving Repr, DecidableEq

/-- EXCLUDED_LIBRARIES (models/db.py lines 22-26). -/
def EXCLUDED_LIBRARIES : List String := ["thp", "Gekko runtime", "<unknown>"]

/-- record_attempt (models/db.py lines 110-143) as a pure state update:
builds the Attempt row from the AgentResult and updates the Function row
(attempts incremented, current_match_pct raised to the new best when the
new best is strictly greater). -/
def record_attempt (function : FunctionRow) (result : AgentResult) :
    Attempt × FunctionRow :=
  ({ function_id := function.id
     matched := result.matched
     best_match_pct := result.best_match_percent
     iterations := result.iterations
     total_tokens := result.total_tokens
     input_tokens := result.input_tokens
     output_tokens := result.output_tokens
     cached_tokens := result.cached_tokens
     elapsed_seconds := result.elapsed_seconds
     termination_reason := result.termination_reason
     final_code := result.final_code
     error := result.error },
   { function with
     attempts := function.attempts + 1
     current_match_pct :=
       if result.best_match_percent > function.current_match_pct then
         result.best_match_percent
       else function.current_match_pct })

/-- Number of parameters of `record_attempt` as defined in the source
(models/db.py lines 110-114: session, function, result). -/
def record_attempt_param_count : ℕ := 3

/-- Number of positional arguments `run_function` passes to
`record_attempt` at its call site (orchestrator/runner.py line 108:
session, function, result, cost). -/
def run_function_record_attempt_arg_count : ℕ := 4

/-- Candidate eligibility filter of get_candidate_batch
(models/db.py lines 199-212): status pending, attempts below the cap,
current match below 100, library not excluded, plus the optional
max_size / library / min_match / max_match filters. -/
def candidateFilter (max_attempts : ℕ) (max_size : Option ℕ)
    (library : Option String) (min_match max_match : Option ℚ)
    (f : FunctionRow) : Bool :=
  decide (f.status = "pending") &&
  decide (f.attempts < max_attempts) &&
  decide (f.current_match_pct < 100) &&
  decide (f.library ∉ EXCLUDED_LIBRARIES) &&
  (match max_size with | none => true | some m => decide (f.size ≤ m)) &&
  (match library with | none => true | some l => decide (f.library = l)) &&
  (match min_match with | none => true | some m => decide (m ≤ f.current_match_pct)) &&
  (match max_match with | none => true | some m => decide (f.current_match_pct ≤ m))

/-- Ordering used by strategy smallest_first: ORDER BY size, address
(models/db.py lines 214-215). -/
def smallestFirstLe (a b : FunctionRow) : Prop :=
  a.size < b.size ∨ (a.size = b.size ∧ a.address ≤ b.address)

/-- Ordering used by strategy best_match_first: ORDER BY
current_match_pct DESC, size ASC (models/db.py lines 216-217). -/
def bestMatchFirstLe (a b : FunctionRow) : Prop :=
  b.current_match_pct < a.current_match_pct ∨
  (a.current_match_pct = b.current_match_pct ∧ a.size ≤ b.size)

instance : DecidableRel smallestFirstLe := fun a b => by
  unfold smallestFirstLe; infer_instance

instance : DecidableRel bestMatchFirstLe := fun a b => by
  unfold bestMatchFirstLe; infer_instance

instance : IsTotal FunctionRow smallestFirstLe where
  total a b := by
    unfold smallestFirstLe
    rcases Nat.lt_trichotomy a.size b.size with h | h | h
    · exact Or.inl (Or.inl h)
    · rcases Nat.le_total a.address b.address with h2 | h2
      · exact Or.inl (Or.inr ⟨h, h2⟩)
      · exact Or.inr (Or.inr ⟨h.symm, h2⟩)
    · exact Or.inr (Or.inl h)

instance : IsTrans FunctionRow smallestFirstLe where
  trans a b c hab hbc := by
    unfold smallestFirstLe at *
    rcases hab with h1 | ⟨h1, h1a⟩ <;> rcases hbc with h2 | ⟨h2, h2a⟩
    · exact Or.inl (h1.trans h2)
    · exact Or.inl (h2 ▸ h1)
    · exact Or.inl (h1 ▸ h2)
    · exact Or.inr ⟨h1.trans h2, h1a.trans h2a⟩

instance : IsTotal FunctionRow bestMatchFirstLe where
  total a b := by
    unfold bestMatchFirstLe
    rcases lt_trichotomy a.current_match_pct b.current_match_pct with h | h | h
    · exact Or.inr (Or.inl h)
    · rcases Nat.le_total a.size b.size with h2 | h2
      · exact Or.inl (Or.inr ⟨h, h2⟩)
      · exact Or.inr (Or.inr ⟨h.symm, h2⟩)
    · exact Or.inl (Or.inl h)

instance : IsTrans FunctionRow bestMatchFirstLe where
  trans a b c hab hbc := by
    unfold bestMatchFirstLe at *
    rcases hab with h1 | ⟨h1, h1a⟩ <;> rcases hbc with h2 | ⟨h2, h2a⟩
    · exact Or.inl (h2.trans h1)
    · exact Or.inl (h2 ▸ h1)
    · exact Or.inl (h1 ▸ h2)
    · exact Or.inr ⟨h1.trans h2, h1a.trans h2a⟩

/-- get_candidate_batch (models/db.py lines 183-222): filter the Function
table, sort according to the strategy (unknown strategies fall back to the
smallest_first ordering, lines 218-219), and truncate to the limit.  The
SQL SELECT is modelled as a list filter, ORDER BY as a sort by the
corresponding key, and LIMIT as `take`. -/
def get_candidate_batch (db : List FunctionRow) (limit : ℕ)
    (max_size : Option ℕ) (max_attempts : ℕ) (strategy : String)
    (library : Option String) (min_match max_match : Option ℚ) :
    List FunctionRow :=
  let filtered := db.filter (candidateFilter max_attempts max_size library min_match max_match)
  let sorted :=
    if strategy = "smallest_first" then
      List.insertionSort smallestFirstLe filtered
    else if strategy = "best_match_first" then
      List.insertionSort bestMatchFirstLe filtered
    else
      List.insertionSort smallestFirstLe filtered
  sorted.take limit

/-- Join underlying get_historical_avg_tokens (models/db.py lines 234-238):
total_tokens of every Attempt whose owning Function has size within
[low, high]. -/
def historicalTokenRows (functions : List FunctionRow) (attempts : List Attempt)
    (low high : ℕ) : List ℕ :=
  attempts.flatMap (fun a =>
    (functions.filter (fun f =>
      decide (f.id = a.function_id) && decide (low ≤ f.size) && decide (f.size ≤ high))).map
      (fun _ => a.total_tokens))

/-- get_historical_avg_tokens (models/db.py lines 225-242).  SQL AVG over
an empty row set is NULL, modelled as `none`; the source then maps both a
NULL and an average equal to 0 to None (line 240-241). -/
def get_historical_avg_tokens (functions : List FunctionRow)
    (attempts : List Attempt) (low high : ℕ) : Option ℚ :=
  let rows := historicalTokenRows functions attempts low high
  match rows with
  | [] => none
  | _ =>
    let avg : ℚ := ((rows.map (fun n : ℕ => (n : ℚ))).sum) / (rows.length : ℚ)
    if avg = 0 then none else some avg

/- ------------------------------------------------------------------ -/
/- Cost estimator: cost.py                                            -/
/- ------------------------------------------------------------------ -/

/-- PricingConfig (cost.py lines 15-18), defaults 1.75 / 0.175 / 14.00
dollars per million tokens. -/
structure PricingConfig where
  input_per_million : ℚ := 7/4
  cached_input_per_million : ℚ := 7/40
  output_per_million : ℚ := 14
deriving Repr, DecidableEq

/-- calculate_cost (cost.py lines 21-26). -/
def calculate_cost (result : AgentResult) (pricing : PricingConfig) : ℚ :=
  (result.input_tokens : ℚ) * pricing.input_per_million / 1000000
  + (result.cached_tokens : ℚ) * pricing.cached_input_per_million / 1000000
  + (result.output_tokens : ℚ) * pricing.output_per_million / 1000000

/-- Pricing of an estimated token total under the fixed 70 percent input,
10 percent cached, 20 percent output split (cost.py lines 49-57). -/
def priceTokenSplit (total : ℚ) (pricing : PricingConfig) : ℚ :=
  (total * (7/10)) * pricing.input_per_million / 1000000
  + (total * (1/10)) * pricing.cached_input_per_million / 1000000
  + (total * (2/10)) * pricing.output_per_million / 1000000

/-- estimate_function_cost (cost.py lines 29-57).  The size window is
[max(1, int(size*0.5)), int(size*1.5)]; both float products are exact and
int() truncates, so they are the natural-number divisions below. -/
def estimate_function_cost (size : ℕ) (functions : List FunctionRow)
    (attempts : List Attempt) (pricing : PricingConfig) : ℚ :=
  let low := max 1 (size / 2)
  let high := size * 3 / 2
  let avg := get_historical_avg_tokens functions attempts low high
  let total : ℚ := match avg with | some a => a | none => (size : ℚ) * 15
  priceTokenSplit total pricing

/- ------------------------------------------------------------------ -/
/- Per-Job Runner: orchestrator/runner.py                             -/
/- ------------------------------------------------------------------ -/

/-- Status assignment performed by run_function after a completed run
(orchestrator/runner.py lines 110-116): the code branches only on
result.matched, assigning matched (with matched_at set) or pending. -/
def run_function_apply_transition (function : FunctionRow)
    (result : AgentResult) (now : ℕ) : FunctionRow :=
  if result.matched then
    { function with status := "matched", matched_at := some now }
  else
    { function with status := "pending" }

/-- File-lock region of run_function (orchestrator/runner.py lines 78-101)
as a pure function of the pre-run file contents, the file contents left
behind by the agent, and the agent outcome (a result, or the message of an
exception the agent raised).  Returns the captured AgentResult and the
file contents at the moment the file lock is released; an agent exception
is converted into a default AgentResult carrying the message as error and
termination_reason agent_crash (lines 86-91), and the snapshot is written
back whenever the result is not a match and a snapshot existed
(lines 93-95). -/
def run_function_locked_phase (initial_file : Option (List ℕ))
    (file_after_agent : Option (List ℕ))
    (agent_outcome : Except String AgentResult) :
    AgentResult × Option (List ℕ) :=
  let saved_source := initial_file
  let result :=
    match agent_outcome with
    | .ok r => r
    | .error e => { error := some e, termination_reason := "agent_crash" }
  let final_file :=
    if !result.matched && saved_source.isSome then saved_source
    else file_after_agent
  (result, final_file)

/- ------------------------------------------------------------------ -/
/- Batch Orchestrator: orchestrator/batch.py                          -/
/- ------------------------------------------------------------------ -/

/-- FunctionResult dataclass (orchestrator/batch.py lines 26-35). -/
structure FunctionResult where
  name : String := ""
  matched : Bool := false
  best_match_pct : ℚ := 0
  tokens : ℕ := 0
  cost : ℚ := 0
  elapsed : ℚ := 0
  error : Option String := none
  termination_reason : String := ""
deriving Repr, DecidableEq

/-- BatchResult dataclass (orchestrator/batch.py lines 38-47). -/
structure BatchResult where
  attempted : ℕ := 0
  matched : ℕ := 0
  failed : ℕ := 0
  total_tokens : ℕ := 0
  total_cost : ℚ := 0
  errors : List String := []
  results : List FunctionResult := []
deriving Repr, DecidableEq

/-- Dispatch part of _run_one (orchestrator/batch.py lines 80-129), i.e.
everything after the budget check: run_function either raises (modelled by
`Except.error`, recorded as an exception, lines 82-90) or returns an
AgentResult whose cost and tokens are added to the shared totals
(lines 92-127). -/
def run_one_dispatch (pricing : PricingConfig) (function : FunctionRow)
    (outcome : Except String AgentResult) (batch : BatchResult) :
    BatchResult × FunctionResult :=
  match outcome with
  | .error e =>
    let fr : FunctionResult :=
      { name := function.name, error := some e, termination_reason := "exception" }
    ({ batch with
        failed := batch.failed + 1
        attempted := batch.attempted + 1
        errors := batch.errors ++ [function.name ++ ": " ++ e]
        results := batch.results ++ [fr] }, fr)
  | .ok result =>
    let cost := calculate_cost result pricing
    let fr : FunctionResult :=
      { name := function.name
        matched := result.matched
        best_match_pct := result.best_match_percent
        tokens := result.total_tokens
        cost := cost
        elapsed := result.elapsed_seconds
        error := result.error
        termination_reason := result.termination_reason }
    ({ batch with
        attempted := batch.attempted + 1
        total_tokens := batch.total_tokens + result.total_tokens
        total_cost := batch.total_cost + cost
        results := batch.results ++ [fr]
        matched := if result.matched then batch.matched + 1 else batch.matched
        failed :=
          if !result.matched && result.error.isSome then batch.failed + 1
          else batch.failed }, fr)

/-- _run_one (orchestrator/batch.py lines 50-129): re-check the shared
running cost against the budget before starting (lines 64-72); a job that
would start after budget exhaustion is returned with
termination_reason = budget_exceeded and is not dispatched. -/
def run_one (budget : Option ℚ) (pricing : PricingConfig)
    (function : FunctionRow) (outcome : Except String AgentResult)
    (batch : BatchResult) : BatchResult × FunctionResult :=
  match budget with
  | some b =>
    if batch.total_cost ≥ b then
      (batch,
       { name := function.name
         error := some "budget_exceeded"
         termination_reason := "budget_exceeded" })
    else
      run_one_dispatch pricing function outcome batch
  | none => run_one_dispatch pricing function outcome batch

/-- Budget test of the sequential loop (orchestrator/batch.py line 226). -/
def budgetExhausted (budget : Option ℚ) (batch : BatchResult) : Bool :=
  match budget with
  | none => false
  | some b => decide (batch.total_cost ≥ b)

/-- Sequential execution branch of run_batch, workers <= 1
(orchestrator/batch.py lines 222-229): before each job the running total
is checked against the budget and the loop breaks once it has reached it;
otherwise the job is handed to _run_one.  Each candidate is paired with
the outcome its dispatch would produce. -/
def run_batch_sequential (budget : Option ℚ) (pricing : PricingConfig) :
    List (FunctionRow × Except String AgentResult) → BatchResult → BatchResult
  | [], batch => batch
  | (f, oc) :: rest, batch =>
    if budgetExhausted budget batch then batch
    else run_batch_sequential budget pricing rest (run_one budget pricing f oc batch).1

/-- Keyword parameters accepted by run_batch as defined in the source
(orchestrator/batch.py lines 132-145). -/
def run_batch_keyword_params : List String :=
  ["limit", "max_size", "workers", "budget", "strategy", "library",
   "min_match", "max_match", "auto_approve"]

/-- Keyword arguments the web front-end passes to run_batch when starting
a batch (web/routers/batch.py lines 101-114). -/
def web_start_batch_call_keywords : List String :=
  ["limit", "max_size", "workers", "budget", "strategy", "library",
   "min_match", "max_match", "auto_approve", "cancel_flag"]

/- ------------------------------------------------------------------ -/
/- Instruction Model: tools/disasm.py parsing helpers                 -/
/- ------------------------------------------------------------------ -/

/-- Python whitespace test used by str.strip and str.split. -/
def isPySpace (c : Char) : Bool := c.isWhitespace

/-- Hex digit class [0-9A-Fa-f] of the instruction regex. -/
def isHexChar (c : Char) : Bool :=
  c.isDigit || ('A' ≤ c && c ≤ 'F') || ('a' ≤ c && c ≤ 'f')

/-- str.strip on a character list: drop whitespace from both ends. -/
def pyStripChars (l : List Char) : List Char :=
  ((l.dropWhile isPySpace).reverse.dropWhile isPySpace).reverse

/-- str.strip. -/
def pyStrip (s : String) : String := String.mk (pyStripChars s.data)

/-- Fuelled worker for str.split with no separator. -/
def splitWsCharsF : ℕ → List Char → List (List Char)
  | 0, _ => []
  | _ + 1, [] => []
  | fuel + 1, c :: rest =>
    if isPySpace c then splitWsCharsF fuel rest
    else (c :: rest.takeWhile (fun d => !isPySpace d)) ::
         splitWsCharsF fuel (rest.dropWhile (fun d => !isPySpace d))

/-- str.split with no separator: split on whitespace runs, no empty
tokens.  The fuel always suffices because every step consumes at least
one character. -/
def splitWsChars (l : List Char) : List (List Char) := splitWsCharsF l.length l

/-- str.split with no separator, on strings. -/
def pySplit (s : String) : List String := (splitWsChars s.data).map String.mk

/-- extract_mnemonic (tools/disasm.py lines 194-204): first
whitespace-delimited token of the stripped instruction text, or the empty
string. -/
def extract_mnemonic (insn_text : String) : String :=
  match splitWsChars (pyStripChars insn_text.data) with
  | [] => ""
  | t :: _ => String.mk t

/-- Maximal munch of one-or-more characters of a class; the instruction
regex only uses plus-quantifiers whose class is disjoint from what
follows, so maximal munch agrees with backtracking. -/
def munch1 (p : Char → Bool) (l : List Char) : Option (List Char) :=
  match l with
  | c :: rest => if p c then some (rest.dropWhile p) else none
  | [] => none

/-- Fuelled worker matching group 1 of the instruction regex together
with the closing marker: one or more (two hex digits, optional single
whitespace) items, followed by the literal star-slash.  Returns the
characters captured by the group and the rest of the input, trying longer
item chains first exactly as the backtracking regex engine does. -/
def grpItemsF : ℕ → List Char → Option (List Char × List Char)
  | 0, _ => none
  | fuel + 1, h1 :: h2 :: s :: rest2 =>
    if isHexChar h1 && isHexChar h2 then
      if isPySpace s then
        match grpItemsF fuel rest2 with
        | some (g, r) => some (h1 :: h2 :: s :: g, r)
        | none =>
          match rest2 with
          | '*' :: '/' :: r => some ([h1, h2, s], r)
          | _ => none
      else
        match grpItemsF fuel (s :: rest2) with
        | some (g, r) => some (h1 :: h2 :: g, r)
        | none =>
          match s :: rest2 with
          | '*' :: '/' :: r => some ([h1, h2], r)
          | _ => none
    else none
  | _ + 1, _ => none

/-- Group 1 of the instruction regex (see grpItemsF): the fuel always
suffices because every recursion consumes at least two characters. -/
def grpItems (l : List Char) : Option (List Char × List Char) :=
  grpItemsF l.length l

/-- Anchored match of the instruction pattern (tools/disasm.py
lines 23-25) against a stripped line: slash-star, whitespace, hex run,
whitespace, hex run, whitespace, the byte group, star-slash, whitespace,
and the remainder of the line as group 2. -/
def matchInstructionPattern (l : List Char) : Option (List Char × List Char) :=
  match l with
  | '/' :: '*' :: r0 => do
    let r1 ← munch1 isPySpace r0
    let r2 ← munch1 isHexChar r1
    let r3 ← munch1 isPySpace r2
    let r4 ← munch1 isHexChar r3
    let r5 ← munch1 isPySpace r4
    let (g1, r6) ← grpItems r5
    let r7 ← munch1 isPySpace r6
    some (g1, r7)
  | _ => none

/-- parse_instruction (tools/disasm.py lines 172-186): regex-match the
stripped line and strip both captured groups; None for non-instruction
lines. -/
def parse_instruction (line : String) : Option (String × String) :=
  match matchInstructionPattern (pyStripChars line.data) with
  | none => none
  | some (g1, g2) =>
    some (String.mk (pyStripChars g1), String.mk (pyStripChars g2))

/-- str.splitlines for newline-separated text. -/
def pySplitLines (s : String) : List String := s.splitOn "\n"

/-- parse_asm_to_tuples (tools/disasm.py lines 207-214): parse every line,
keeping the (hex_bytes, instruction_text) pairs of instruction lines. -/
def parse_asm_to_tuples (asm_text : String) : List (String × String) :=
  (pySplitLines asm_text).filterMap parse_instruction

/- ------------------------------------------------------------------ -/
/- difflib.SequenceMatcher port (used with isjunk=None)               -/
/- ------------------------------------------------------------------ -/

/-- Index map of SequenceMatcher.__chain_b before the autojunk step:
element to ascending list of its positions in b. -/
def chainB0 {α : Type} [DecidableEq α] (b : List α) (x : α) : List ℕ :=
  (List.range b.length).filter (fun j => decide (b.get? j = some x))

/-- Autojunk popularity test of __chain_b: with 200 or more elements,
an element occurring on more than one percent of positions is dropped
from the index map. -/
def bPopularTest {α : Type} [DecidableEq α] (b : List α) (x : α) : Bool :=
  decide (b.length ≥ 200) && decide (b.count x > b.length / 100 + 1)

/-- b2j map after autojunk (isjunk is None at both SequenceMatcher call
sites in tools/disasm.py, so there is no explicit junk). -/
def smB2j {α : Type} [DecidableEq α] (b : List α) (x : α) : List ℕ :=
  if bPopularTest b x then [] else chainB0 b x

/-- Inner j-loop of find_longest_match over b2j[a i]: j below blo is
skipped, j at or past bhi breaks, otherwise the run length ending at
(i, j) extends the run ending at (i-1, j-1) and the best block is updated
when strictly longer. -/
def flmJLoop (j2len : ℕ → ℕ) (blo bhi i : ℕ) :
    List ℕ → (ℕ → ℕ) → (ℕ × ℕ × ℕ) → ((ℕ → ℕ) × (ℕ × ℕ × ℕ))
  | [], newj2len, best => (newj2len, best)
  | j :: js, newj2len, best =>
    if j < blo then flmJLoop j2len blo bhi i js newj2len best
    else if bhi ≤ j then (newj2len, best)
    else
      -- at j = 0 the source looks up j2len[-1], which is never present
      let k := (if j = 0 then 0 else j2len (j - 1)) + 1
      let newj2len2 := Function.update newj2len j k
      let best2 := if k > best.2.2 then (i + 1 - k, j + 1 - k, k) else best
      flmJLoop j2len blo bhi i js newj2len2 best2

/-- Outer i-loop of find_longest_match: each i starts a fresh newj2len
dict (modelled as the everywhere-zero function) and folds the inner loop
state through the index range. -/
def flmILoop {α : Type} [DecidableEq α] (a : List α) (b2jf : α → List ℕ)
    (blo bhi : ℕ) (d : α) :
    List ℕ → ((ℕ → ℕ) × (ℕ × ℕ × ℕ)) → ((ℕ → ℕ) × (ℕ × ℕ × ℕ))
  | [], st => st
  | i :: is2, (j2len, best) =>
    let st2 := flmJLoop j2len blo bhi i (b2jf (a.getD i d)) (fun _ => 0) best
    flmILoop a b2jf blo bhi d is2 st2

/-- Fuelled backward extension loop of find_longest_match (the
junk-aware loops never fire because isjunk is None, hence bjunk is
empty). -/
def flmExtendBackF {α : Type} [DecidableEq α] (a b : List α) (d : α)
    (alo blo : ℕ) : ℕ → ℕ → ℕ → ℕ → ℕ × ℕ × ℕ
  | 0, besti, bestj, bestsize => (besti, bestj, bestsize)
  | fuel + 1, besti, bestj, bestsize =>
    if alo < besti ∧ blo < bestj ∧ a.getD (besti - 1) d = b.getD (bestj - 1) d then
      flmExtendBackF a b d alo blo fuel (besti - 1) (bestj - 1) (bestsize + 1)
    else (besti, bestj, bestsize)

/-- Backward extension entry point: besti itself bounds the number of
possible steps, so it is adequate fuel. -/
def flmExtendBack {α : Type} [DecidableEq α] (a b : List α) (d : α)
    (alo blo : ℕ) (besti bestj bestsize : ℕ) : ℕ × ℕ × ℕ :=
  flmExtendBackF a b d alo blo besti besti bestj bestsize

/-- Fuelled forward extension loop of find_longest_match. -/
def flmExtendFwdF {α : Type} [DecidableEq α] (a b : List α) (d : α)
    (ahi bhi : ℕ) (besti bestj : ℕ) : ℕ → ℕ → ℕ
  | 0, bestsize => bestsize
  | fuel + 1, bestsize =>
    if besti + bestsize < ahi ∧ bestj + bestsize < bhi ∧
        a.getD (besti + bestsize) d = b.getD (bestj + bestsize) d then
      flmExtendFwdF a b d ahi bhi besti bestj fuel (bestsize + 1)
    else bestsize

/-- Forward extension entry point: ahi bounds the number of possible
steps, so it is adequate fuel. -/
def flmExtendFwd {α : Type} [DecidableEq α] (a b : List α) (d : α)
    (ahi bhi : ℕ) (besti bestj bestsize : ℕ) : ℕ :=
  flmExtendFwdF a b d ahi bhi besti bestj ahi bestsize

/-- find_longest_match restricted to [alo, ahi) x [blo, bhi). -/
def find_longest_match {α : Type} [DecidableEq α] (a b : List α) (d : α)
    (b2jf : α → List ℕ) (alo ahi blo bhi : ℕ) : ℕ × ℕ × ℕ :=
  let st := flmILoop a b2jf blo bhi d (List.range' alo (ahi - alo))
    ((fun _ => 0), (alo, blo, 0))
  let bk := flmExtendBack a b d alo blo st.2.1 st.2.2.1 st.2.2.2
  let ks := flmExtendFwd a b d ahi bhi bk.1 bk.2.1 bk.2.2
  (bk.1, bk.2.1, ks)

/-- Ordering of matching blocks, i.e. Python tuple comparison on
(i, j, size). -/
def blockLe (x y : ℕ × ℕ × ℕ) : Prop :=
  x.1 < y.1 ∨ (x.1 = y.1 ∧ (x.2.1 < y.2.1 ∨ (x.2.1 = y.2.1 ∧ x.2.2 ≤ y.2.2)))

instance : DecidableRel blockLe := fun x y => by
  unfold blockLe; infer_instance

/-- Queue-driven divide and conquer of get_matching_blocks: pop a region,
find its longest match, and when one exists record it and push the left
and right subregions (the push order mirrors the LIFO queue of the
source).  Fuel bounds the iteration count; the initial fuel given below
exceeds the number of regions the algorithm can ever process. -/
def matchingBlocksLoop {α : Type} [DecidableEq α] (a b : List α) (d : α)
    (b2jf : α → List ℕ) :
    ℕ → List (ℕ × ℕ × ℕ × ℕ) → List (ℕ × ℕ × ℕ) → List (ℕ × ℕ × ℕ)
  | 0, _, acc => acc
  | _ + 1, [], acc => acc
  | fuel + 1, (alo, ahi, blo, bhi) :: qrest, acc =>
    let ijk := find_longest_match a b d b2jf alo ahi blo bhi
    if ijk.2.2 ≠ 0 then
      let q2 :=
        (if ijk.1 + ijk.2.2 < ahi ∧ ijk.2.1 + ijk.2.2 < bhi then
          [(ijk.1 + ijk.2.2, ahi, ijk.2.1 + ijk.2.2, bhi)] else []) ++
        (if alo < ijk.1 ∧ blo < ijk.2.1 then [(alo, ijk.1, blo, ijk.2.1)] else []) ++
        qrest
      matchingBlocksLoop a b d b2jf fuel q2 (acc ++ [ijk])
    else matchingBlocksLoop a b d b2jf fuel qrest acc

/-- Adjacent-block merge at the end of get_matching_blocks. -/
def mergeAdjacentBlocks : List (ℕ × ℕ × ℕ) → (ℕ × ℕ × ℕ) → List (ℕ × ℕ × ℕ)
  | [], (i1, j1, k1) => if k1 ≠ 0 then [(i1, j1, k1)] else []
  | (i2, j2, k2) :: rest, (i1, j1, k1) =>
    if i1 + k1 = i2 ∧ j1 + k1 = j2 then
      mergeAdjacentBlocks rest (i1, j1, k1 + k2)
    else
      (if k1 ≠ 0 then [(i1, j1, k1)] else []) ++ mergeAdjacentBlocks rest (i2, j2, k2)

/-- get_matching_blocks: run the queue loop from the full region, sort the
blocks, merge adjacent ones and append the (la, lb, 0) sentinel. -/
def get_matching_blocks {α : Type} [DecidableEq α] (a b : List α) (d : α) :
    List (ℕ × ℕ × ℕ) :=
  let blocks := matchingBlocksLoop a b d (smB2j b)
    (2 * (a.length + b.length) + 2) [(0, a.length, 0, b.length)] []
  mergeAdjacentBlocks (List.insertionSort blockLe blocks) (0, 0, 0)
    ++ [(a.length, b.length, 0)]

/-- SequenceMatcher.ratio: twice the matched element count over the total
length (1 for two empty sequences). -/
def smRatio {α : Type} [DecidableEq α] (a b : List α) (d : α) : ℚ :=
  let matchSum : ℕ := ((get_matching_blocks a b d).map (fun t => t.2.2)).sum
  let length := a.length + b.length
  if length ≠ 0 then 2 * (matchSum : ℚ) / (length : ℚ) else 1

/-- Python round to the nearest integer, ties to even. -/
def pyRoundHalfEven (x : ℚ) : ℤ :=
  let f := Int.floor x
  let frac := x - f
  if frac < 1/2 then f
  else if 1/2 < frac then f + 1
  else if Even f then f else f + 1

/-- Python round(x, 4). -/
def pyRound4 (x : ℚ) : ℚ := (pyRoundHalfEven (x * 10000) : ℚ) / 10000

/- ------------------------------------------------------------------ -/
/- Alignment and Scoring Engine: tools/disasm.py, tools/build.py      -/
/- ------------------------------------------------------------------ -/

/-- FunctionMatch dataclass as defined in the source (tools/build.py
lines 14-19): its only fields are name, fuzzy_match_percent and size. -/
structure FunctionMatch where
  name : String
  fuzzy_match_percent : ℚ
  size : ℕ
deriving Repr, DecidableEq

/-- Field names of the FunctionMatch dataclass constructor
(tools/build.py lines 14-19). -/
def functionMatchFields : List String := ["name", "fuzzy_match_percent", "size"]

/-- Keyword arguments compute_function_match passes to FunctionMatch at
every one of its return sites (tools/disasm.py lines 450-453, 456-459,
463-466 and 494-500). -/
def computeFunctionMatchCallKwargs : List String :=
  ["name", "fuzzy_match_percent", "size", "structural_match_percent", "mismatch_type"]

/-- Message of the TypeError a Python dataclass constructor raises for a
keyword argument that is not one of its fields. -/
def functionMatchKwargTypeError : String :=
  "TypeError: FunctionMatch.__init__() got an unexpected keyword argument: structural_match_percent"

/-- Field values computed by compute_function_match (tools/disasm.py
lines 441-500) for a pair of parsed instruction sequences: these are the
values the function attempts to return. -/
structure FunctionMatchValues where
  name : String
  fuzzy_match_percent : ℚ
  size : ℕ
  structural_match_percent : ℚ
  mismatch_type : String
deriving Repr, DecidableEq

/-- Value-level computation of compute_function_match after parsing
(tools/disasm.py lines 444-500): degenerate branches for empty sequences,
the exact raw-byte path, the byte-level fuzzy ratio, and the
mnemonic-level structural ratio with the mismatch classification. -/
def compute_function_match_values_parsed
    (target_parsed compiled_parsed : List (String × String)) :
    FunctionMatchValues :=
  let target_bytes := target_parsed.map Prod.fst
  let compiled_bytes := compiled_parsed.map Prod.fst
  let size := target_bytes.length * 4
  if target_bytes.isEmpty && compiled_bytes.isEmpty then
    ⟨"", 100, 0, 100, ""⟩
  else if target_bytes.isEmpty || compiled_bytes.isEmpty then
    ⟨"", 0, size, 0, "structural"⟩
  else if target_bytes = compiled_bytes then
    ⟨"", 100, size, 100, ""⟩
  else
    let target_flat := target_bytes.flatMap pySplit
    let compiled_flat := compiled_bytes.flatMap pySplit
    let ratio := smRatio target_flat compiled_flat ""
    let target_mnemonics := target_parsed.map (fun t => extract_mnemonic t.2)
    let compiled_mnemonics := compiled_parsed.map (fun c => extract_mnemonic c.2)
    if target_mnemonics = compiled_mnemonics then
      ⟨"", pyRound4 (ratio * 100), size, 100, "register_only"⟩
    else
      let structural_ratio := smRatio target_mnemonics compiled_mnemonics ""
      let structural_pct := pyRound4 (structural_ratio * 100)
      let mismatch_type :=
        if structural_pct = 100 then "register_only"
        else if target_mnemonics.length ≠ compiled_mnemonics.length then "structural"
        else "opcode"
      ⟨"", pyRound4 (ratio * 100), size, structural_pct, mismatch_type⟩

/-- Value-level computation of compute_function_match from the assembly
text inputs. -/
def compute_function_match_values (target_asm compiled_asm : String) :
    FunctionMatchValues :=
  compute_function_match_values_parsed
    (parse_asm_to_tuples target_asm) (parse_asm_to_tuples compiled_asm)

/-- compute_function_match (tools/disasm.py lines 420-500) as executed:
every return site constructs FunctionMatch with the keyword arguments
structural_match_percent and mismatch_type, which are not fields of the
dataclass (tools/build.py lines 14-19), so every branch raises a
TypeError instead of returning. -/
def compute_function_match (target_asm compiled_asm : String) :
    Except String FunctionMatch :=
  let target_parsed := parse_asm_to_tuples target_asm
  let compiled_parsed := parse_asm_to_tuples compiled_asm
  let target_bytes := target_parsed.map Prod.fst
  let compiled_bytes := compiled_parsed.map Prod.fst
  if target_bytes.isEmpty && compiled_bytes.isEmpty then
    .error functionMatchKwargTypeError
  else if target_bytes.isEmpty || compiled_bytes.isEmpty then
    .error functionMatchKwargTypeError
  else if target_bytes = compiled_bytes then
    .error functionMatchKwargTypeError
  else
    .error functionMatchKwargTypeError

/- ------------------------------------------------------------------ -/
/- Concrete example data used by witnesses                            -/
/- ------------------------------------------------------------------ -/

/-- Example pricing with a dollar per million input tokens and free
cached and output tokens. -/
def examplePricing : PricingConfig :=
  { input_per_million := 1, cached_input_per_million := 0, output_per_million := 0 }

/-- Example job whose run costs exactly half a dollar under
examplePricing. -/
def exampleJob : FunctionRow × Except String AgentResult :=
  ({ name := "f1" }, Except.ok { input_tokens := 500000 })

/-- Three example jobs of half a dollar each. -/
def exampleJobs : List (FunctionRow × Except String AgentResult) :=
  [exampleJob, exampleJob, exampleJob]

/-- Example candidate rows. -/
def exampleRowA : FunctionRow := { name := "a", address := 5, size := 2 }

/-- Example candidate row smaller than exampleRowA. -/
def exampleRowB : FunctionRow := { name := "b", address := 1, size := 1 }

/-- Example row that is already matched and hence ineligible. -/
def exampleRowC : FunctionRow := { name := "c", status := "matched" }

/-- Example Function table. -/
def exampleDb : List FunctionRow := [exampleRowA, exampleRowB, exampleRowC]

/-- Example Function table for the historical-average query. -/
def exampleHistFunctions : List FunctionRow := [{ id := 1, size := 100 }]

/-- Example Attempt history whose only attempt recorded zero tokens. -/
def exampleHistAttempts : List Attempt := [{ function_id := 1, total_tokens := 0 }]

/- ------------------------------------------------------------------ -/
/- Theorems                                                           -/
/- ------------------------------------------------------------------ -/

/-- C1: the claim states that after a completed run the status becomes
matched on success, else failed once the attempts count has reached
max_attempts, else pending.  The code has no failed branch: evaluating
the runner's transition at the failing input (a Function on its final
allowed attempt, max_attempts = 2, run unsuccessful) shows attempts
reaching 2 while the status is set back to pending, not failed. -/
theorem c1_final_attempt_stays_pending :
    ((record_attempt { name := "simple_loop", attempts := 1 }
        { matched := false, termination_reason := "max_iterations" }).2.attempts = 2) ∧
    ((run_function_apply_transition
        (record_attempt { name := "simple_loop", attempts := 1 }
          { matched := false, termination_reason := "max_iterations" }).2
        { matched := false, termination_reason := "max_iterations" } 0).status = "pending") ∧
    "pending" ≠ "failed" := by decide

/-- C2: the claim states every completed run ends with an Attempt row
persisted via record_attempt.  The runner passes four positional
arguments to record_attempt, which takes three, so the call raises
TypeError before anything is persisted. -/
theorem c2_record_attempt_arity_mismatch :
    run_function_record_attempt_arg_count ≠ record_attempt_param_count := by decide

/-- C4: an exception raised by the verification agent is converted into a
result with termination_reason agent_crash carrying the message as error
and does not escape the lock region, and whenever the captured result is
not a match and a pre-run snapshot existed, the file bytes at lock
release equal the snapshot. -/
theorem c4_agent_crash_conversion_and_rollback
    (initial_file file_after_agent : Option (List ℕ))
    (agent_outcome : Except String AgentResult) :
    (∀ e, agent_outcome = Except.error e →
      (run_function_locked_phase initial_file file_after_agent agent_outcome).1.termination_reason
          = "agent_crash" ∧
      (run_function_locked_phase initial_file file_after_agent agent_outcome).1.error = some e) ∧
    (∀ s, (run_function_locked_phase initial_file file_after_agent agent_outcome).1.matched = false →
      initial_file = some s →
      (run_function_locked_phase initial_file file_after_agent agent_outcome).2 = some s) := by
  constructor
  · intro e he
    subst he
    simp [run_function_locked_phase]
  · intro s hm hi
    subst hi
    rcases agent_outcome with e | r
    · simp [run_function_locked_phase]
    · simp only [run_function_locked_phase] at hm ⊢
      simp [hm]

/-- Witness for C4 at a concrete crashing run: the agent raises "boom"
after leaving [9] in the file; the captured result reports agent_crash
with error "boom" and the released file holds the snapshot [1, 2, 3]. -/
theorem c4_witness :
    (run_function_locked_phase (some [1, 2, 3]) (some [9]) (Except.error "boom")).1.termination_reason
        = "agent_crash" ∧
    (run_function_locked_phase (some [1, 2, 3]) (some [9]) (Except.error "boom")).1.error
        = some "boom" ∧
    (run_function_locked_phase (some [1, 2, 3]) (some [9]) (Except.error "boom")).2
        = some [1, 2, 3] :=
  ⟨((c4_agent_crash_conversion_and_rollback (some [1, 2, 3]) (some [9])
      (Except.error "boom")).1 "boom" rfl).1,
   ((c4_agent_crash_conversion_and_rollback (some [1, 2, 3]) (some [9])
      (Except.error "boom")).1 "boom" rfl).2,
   (c4_agent_crash_conversion_and_rollback (some [1, 2, 3]) (some [9])
      (Except.error "boom")).2 [1, 2, 3] (by decide) rfl⟩

/-- Unconditional failure of compute_function_match: every return site
passes the keyword arguments structural_match_percent and mismatch_type
to a dataclass that has no such fields, so every call raises TypeError
instead of returning. -/
theorem compute_function_match_always_raises
    (target_asm compiled_asm : String) :
    compute_function_match target_asm compiled_asm =
      Except.error functionMatchKwargTypeError := by
  unfold compute_function_match
  dsimp only
  split_ifs <;> rfl

/-- C5: the claim states the degenerate and exact-path contract of
compute_function_match.  Evaluated at the degenerate both-empty input of
the repo's own test suite, the code raises the FunctionMatch keyword
TypeError instead of returning fuzzy and structural scores of 100 with
size 0. -/
theorem c5_degenerate_contract_unmet :
    compute_function_match "" "" = Except.error functionMatchKwargTypeError :=
  compute_function_match_always_raises "" ""

/-- C6: the claim states the mismatch classification policy of
compute_function_match.  The function never produces a classification:
evaluated at the register-variant example (identical mnemonics, one
differing operand byte), it raises the FunctionMatch keyword TypeError
instead of returning mismatch_type register_only. -/
theorem c6_classification_never_returned :
    compute_function_match
        "/* 80169574 000093F0  80 A3 00 00 */\tlwz r5, 0(r3)"
        "/* 80169574 000093F0  80 C3 00 00 */\tlwz r6, 0(r3)" =
      Except.error functionMatchKwargTypeError := by
  unfold compute_function_match
  dsimp only
  split_ifs <;> rfl

/-- C7: record_attempt updates current_match_pct to the maximum of the
previous value and the attempt's reported best match percent, so it never
decreases. -/
theorem c7_record_attempt_monotone (f : FunctionRow) (r : AgentResult) :
    (record_attempt f r).2.current_match_pct
        = max f.current_match_pct r.best_match_percent ∧
    f.current_match_pct ≤ (record_attempt f r).2.current_match_pct := by
  have h : (record_attempt f r).2.current_match_pct
      = max f.current_match_pct r.best_match_percent := by
    simp only [record_attempt]
    rcases lt_or_le f.current_match_pct r.best_match_percent with h | h
    · rw [if_pos h, max_eq_right h.le]
    · rw [if_neg (not_lt.mpr h), max_eq_left h]
  exact ⟨h, h ▸ le_max_left _ _⟩

/-- C9: the claim states run_batch supports cooperative cancellation via
a signal checked before dispatch.  The web front-end passes a cancel_flag
keyword argument, but run_batch accepts no such parameter (the call
raises TypeError, and run_batch contains no cancellation check). -/
theorem c9_cancel_flag_not_a_run_batch_param :
    "cancel_flag" ∈ web_start_batch_call_keywords ∧
    "cancel_flag" ∉ run_batch_keyword_params := by decide

/-- Value-level contract of the match computation (what
compute_function_match computes and attempts to return, see
compute_function_match_values_parsed): both parsed sequences empty gives
100 percent on both scores with size 0; exactly one empty gives 0 on both
scores with mismatch_type structural; identical raw-byte sequences give
100 on both scores with empty mismatch_type; and the size field is always
4 times the number of target instructions. -/
theorem compute_function_match_values_contract
    (t c : List (String × String)) :
    (t = [] → c = [] →
      compute_function_match_values_parsed t c = ⟨"", 100, 0, 100, ""⟩) ∧
    (t = [] → c ≠ [] →
      compute_function_match_values_parsed t c = ⟨"", 0, 0, 0, "structural"⟩) ∧
    (t ≠ [] → c = [] →
      compute_function_match_values_parsed t c
        = ⟨"", 0, 4 * t.length, 0, "structural"⟩) ∧
    (t.map Prod.fst = c.map Prod.fst →
      (compute_function_match_values_parsed t c).fuzzy_match_percent = 100 ∧
      (compute_function_match_values_parsed t c).structural_match_percent = 100 ∧
      (compute_function_match_values_parsed t c).mismatch_type = "") ∧
    (compute_function_match_values_parsed t c).size = 4 * t.length := by
  refine ⟨?_, ?_, ?_, ?_, ?_⟩
  · intro ht hc
    subst ht; subst hc
    rfl
  · intro ht hc
    subst ht
    have hc2 : (c.map Prod.fst).isEmpty = false := by
      simpa [List.isEmpty_iff] using hc
    simp [compute_function_match_values_parsed, hc2]
  · intro ht hc
    subst hc
    have ht2 : (t.map Prod.fst).isEmpty = false := by
      simpa [List.isEmpty_iff] using ht
    simp [compute_function_match_values_parsed, ht2, Nat.mul_comm]
  · intro hbytes
    rcases eq_or_ne t [] with ht | ht
    · subst ht
      have hc : c = [] := by simpa using hbytes.symm
      subst hc
      exact ⟨rfl, rfl, rfl⟩
    · have hc : c ≠ [] := by
        intro hc; subst hc; simp at hbytes; exact ht hbytes
      have ht2 : (t.map Prod.fst).isEmpty = false := by
        simpa [List.isEmpty_iff] using ht
      have hc2 : (c.map Prod.fst).isEmpty = false := by
        simpa [List.isEmpty_iff] using hc
      simp [compute_function_match_values_parsed, ht2, hc2, hbytes]
  · rcases eq_or_ne t [] with ht | ht
    · subst ht
      rcases eq_or_ne c [] with hc | hc
      · subst hc; rfl
      · have hc2 : (c.map Prod.fst).isEmpty = false := by
          simpa [List.isEmpty_iff] using hc
        simp [compute_function_match_values_parsed, hc2]
    · have ht2 : (t.map Prod.fst).isEmpty = false := by
        simpa [List.isEmpty_iff] using ht
      rcases eq_or_ne c [] with hc | hc
      · subst hc
        simp [compute_function_match_values_parsed, ht2, Nat.mul_comm]
      · have hc2 : (c.map Prod.fst).isEmpty = false := by
          simpa [List.isEmpty_iff] using hc
        by_cases hbytes : t.map Prod.fst = c.map Prod.fst
        · have hlen : c.length = t.length := by
            have := congrArg List.length hbytes
            simpa using this.symm
          simp [compute_function_match_values_parsed, ht2, hc2, hbytes, hlen, Nat.mul_comm]
        · by_cases hmn : t.map (fun p => extract_mnemonic p.2) = c.map (fun p => extract_mnemonic p.2)
          · simp [compute_function_match_values_parsed, ht2, hc2, hbytes, hmn, Nat.mul_comm]
          · simp [compute_function_match_values_parsed, ht2, hc2, hbytes, hmn, Nat.mul_comm]

/-- Dispatching a successfully completing job increments attempted and
adds the job's cost to the running total. -/
theorem run_one_dispatch_ok_state (pricing : PricingConfig) (f : FunctionRow)
    (r : AgentResult) (batch : BatchResult) :
    (run_one_dispatch pricing f (Except.ok r) batch).1.attempted = batch.attempted + 1 ∧
    (run_one_dispatch pricing f (Except.ok r) batch).1.total_cost
      = batch.total_cost + calculate_cost r pricing := by
  constructor <;> rfl

/-- Under an unexhausted budget, _run_one proceeds to dispatch. -/
theorem run_one_not_exhausted (B : ℚ) (pricing : PricingConfig)
    (f : FunctionRow) (oc : Except String AgentResult) (batch : BatchResult)
    (h : batch.total_cost < B) :
    run_one (some B) pricing f oc batch = run_one_dispatch pricing f oc batch := by
  simp only [run_one]
  rw [if_neg (not_le.mpr h)]

/-- Invariant of the sequential loop under a fixed per-job cost: the
running total stays equal to the cost times the attempted count, and
either no job was dispatched beyond the initial state or the last
dispatched job saw a pre-dispatch total strictly below the budget. -/
theorem run_batch_sequential_bound (B c : ℚ) (pricing : PricingConfig)
    (jobs : List (FunctionRow × Except String AgentResult)) (batch : BatchResult)
    (hcost : ∀ p ∈ jobs, ∃ r, p.2 = Except.ok r ∧ calculate_cost r pricing = c)
    (hinv : batch.total_cost = c * batch.attempted) :
    (run_batch_sequential (some B) pricing jobs batch).total_cost
        = c * (run_batch_sequential (some B) pricing jobs batch).attempted ∧
    ((run_batch_sequential (some B) pricing jobs batch).attempted = batch.attempted ∨
      ∃ k : ℕ, (run_batch_sequential (some B) pricing jobs batch).attempted = k + 1
        ∧ c * k < B) := by
  induction jobs generalizing batch with
  | nil => exact ⟨hinv, Or.inl rfl⟩
  | cons p rest ih =>
    obtain ⟨f, oc⟩ := p
    by_cases hex : budgetExhausted (some B) batch = true
    · simp only [run_batch_sequential, hex, if_true]
      exact ⟨hinv, Or.inl trivial⟩
    · have hlt : batch.total_cost < B := by
        simp only [budgetExhausted, decide_eq_true_eq, ge_iff_le] at hex
        exact lt_of_not_le (fun hle => hex (by simpa using hle))
      obtain ⟨r, hoc, hcr⟩ := hcost (f, oc) (List.mem_cons_self _ _)
      have hexf : budgetExhausted (some B) batch = false := by
        simp only [Bool.not_eq_true] at hex; exact hex
      simp only [run_batch_sequential, hexf, if_false, Bool.false_eq_true]
      rw [run_one_not_exhausted _ _ _ _ _ hlt]
      dsimp only at hoc
      subst hoc
      obtain ⟨ha, hc2⟩ := run_one_dispatch_ok_state pricing f r batch
      have hinv2 : (run_one_dispatch pricing f (Except.ok r) batch).1.total_cost
          = c * (run_one_dispatch pricing f (Except.ok r) batch).1.attempted := by
        rw [ha, hc2, hcr, hinv]
        push_cast
        ring
      obtain ⟨h1, h2⟩ := ih (run_one_dispatch pricing f (Except.ok r) batch).1
        (fun q hq => hcost q (List.mem_cons_of_mem _ hq)) hinv2
      refine ⟨h1, Or.inr ?_⟩
      rcases h2 with h2 | ⟨k, hk1, hk2⟩
      · exact ⟨batch.attempted, by rw [h2, ha], hinv ▸ hlt⟩
      · exact ⟨k, hk1, hk2⟩

/-- C3: in a sequential batch run with budget B, the running total is
checked before each job and no job starts once it has reached B; a job
whose _run_one budget check fires is returned with termination_reason
budget_exceeded and is not dispatched (the shared state is unchanged);
and with a fixed per-job cost c at most ceil(B / c) jobs are attempted to
completion. -/
theorem c3_sequential_budget_enforcement (B c : ℚ) (pricing : PricingConfig)
    (jobs : List (FunctionRow × Except String AgentResult))
    (hB : 0 ≤ B) (hc : 0 < c)
    (hcost : ∀ p ∈ jobs, ∃ r, p.2 = Except.ok r ∧ calculate_cost r pricing = c) :
    (((run_batch_sequential (some B) pricing jobs {}).attempted : ℤ) ≤ ⌈B / c⌉) ∧
    (∀ (f : FunctionRow) (oc : Except String AgentResult) (batch : BatchResult),
      B ≤ batch.total_cost →
      run_one (some B) pricing f oc batch =
        (batch, { name := f.name, error := some "budget_exceeded",
                  termination_reason := "budget_exceeded" })) := by
  constructor
  · obtain ⟨h1, h2⟩ := run_batch_sequential_bound B c pricing jobs {} hcost (by simp)
    rcases h2 with h2 | ⟨k, hk1, hk2⟩
    · rw [h2]
      have : ((0 : ℕ) : ℤ) ≤ ⌈B / c⌉ := by
        simpa using Int.ceil_nonneg (div_nonneg hB hc.le)
      simpa using this
    · rw [hk1]
      have hkq : (k : ℚ) < B / c := by
        rw [lt_div_iff₀ hc]
        calc (k : ℚ) * c = c * k := by ring
        _ < B := hk2
      have hki : (k : ℤ) < ⌈B / c⌉ := Int.lt_ceil.mpr (by exact_mod_cast hkq)
      push_cast
      omega
  · intro f oc batch hB2
    simp only [run_one]
    rw [if_pos hB2]

/-- Witness for C3: budget one dollar, three half-dollar jobs; exactly
two jobs are attempted, which is the ceiling of one over one half. -/
theorem c3_witness :
    ((0 : ℚ) ≤ 1 ∧ (0 : ℚ) < 1/2 ∧
      (run_batch_sequential (some 1) examplePricing exampleJobs {}).attempted = 2) ∧
    (((run_batch_sequential (some 1) examplePricing exampleJobs {}).attempted : ℤ)
      ≤ ⌈(1 : ℚ) / (1/2)⌉) :=
  ⟨⟨by norm_num, by norm_num, by
      norm_num [run_batch_sequential, run_one, run_one_dispatch, budgetExhausted,
        calculate_cost, examplePricing, exampleJobs, exampleJob]⟩,
   (c3_sequential_budget_enforcement 1 (1/2) examplePricing exampleJobs
     (by norm_num) (by norm_num)
     (by
       intro p hp
       simp only [exampleJobs, List.mem_cons, List.not_mem_nil, or_false] at hp
       rcases hp with h | h | h <;>
         exact h ▸ ⟨{ input_tokens := 500000 }, rfl, by norm_num [calculate_cost, examplePricing, exampleJob]⟩)).1⟩

/-- C10: when every historical attempt joined into the queried size range
recorded zero total_tokens (in particular also when there are no such
attempts at all), get_historical_avg_tokens returns None because the
average is NULL or exactly 0, and estimate_function_cost therefore falls
back to pricing the size-times-15 token heuristic even though historical
attempts may exist. -/
theorem c10_zero_token_history_heuristic_fallback
    (functions : List FunctionRow) (attempts : List Attempt) (size : ℕ)
    (pricing : PricingConfig)
    (hall : ∀ n ∈ historicalTokenRows functions attempts
      (max 1 (size / 2)) (size * 3 / 2), n = 0) :
    get_historical_avg_tokens functions attempts (max 1 (size / 2)) (size * 3 / 2) = none ∧
    estimate_function_cost size functions attempts pricing
      = priceTokenSplit ((size : ℚ) * 15) pricing := by
  have havg : get_historical_avg_tokens functions attempts
      (max 1 (size / 2)) (size * 3 / 2) = none := by
    unfold get_historical_avg_tokens
    cases hrows : historicalTokenRows functions attempts (max 1 (size / 2)) (size * 3 / 2) with
    | nil => rfl
    | cons x xs =>
      dsimp only
      have hsum : (((x :: xs).map (fun n : ℕ => (n : ℚ))).sum) = 0 := by
        apply List.sum_eq_zero
        intro q hq
        rcases List.mem_map.mp hq with ⟨n, hn, hq2⟩
        have hz := hall n (hrows ▸ hn)
        rw [← hq2, hz]
        norm_num
      rw [hsum, zero_div, if_pos rfl]
  refine ⟨havg, ?_⟩
  unfold estimate_function_cost
  dsimp only
  rw [havg]

/-- Witness for C10: one function of size 100 with one attempt that
recorded zero tokens; the size window of size 100 is [50, 150], the join
is nonempty, yet the average comes back None and the estimate equals the
1500-token heuristic price. -/
theorem c10_witness :
    ((∀ n ∈ historicalTokenRows exampleHistFunctions exampleHistAttempts
        (max 1 (100 / 2)) (100 * 3 / 2), n = 0) ∧
      historicalTokenRows exampleHistFunctions exampleHistAttempts
        (max 1 (100 / 2)) (100 * 3 / 2) ≠ []) ∧
    get_historical_avg_tokens exampleHistFunctions exampleHistAttempts
      (max 1 (100 / 2)) (100 * 3 / 2) = none ∧
    estimate_function_cost 100 exampleHistFunctions exampleHistAttempts examplePricing
      = priceTokenSplit ((100 : ℚ) * 15) examplePricing :=
  ⟨⟨by decide, by decide⟩,
   (c10_zero_token_history_heuristic_fallback exampleHistFunctions exampleHistAttempts
     100 examplePricing (by decide)).1,
   (c10_zero_token_history_heuristic_fallback exampleHistFunctions exampleHistAttempts
     100 examplePricing (by decide)).2⟩

/-- C8: candidate selection returns only pending Functions below the
attempt cap with current match below 100 whose library is not excluded,
honouring the optional max_size, library, min_match and max_match
filters; the result is ordered by (size, address) ascending for
smallest_first, by (current_match_pct descending, size ascending) for
best_match_first, any unknown strategy yields exactly the smallest_first
result, and at most limit rows are returned. -/
theorem c8_candidate_selection (db : List FunctionRow) (limit : ℕ)
    (max_size : Option ℕ) (max_attempts : ℕ) (strategy : String)
    (library : Option String) (min_match max_match : Option ℚ) :
    (∀ f ∈ get_candidate_batch db limit max_size max_attempts strategy library min_match max_match,
      f.status = "pending" ∧ f.attempts < max_attempts ∧ f.current_match_pct < 100 ∧
      f.library ∉ EXCLUDED_LIBRARIES ∧
      (∀ m, max_size = some m → f.size ≤ m) ∧
      (∀ l, library = some l → f.library = l) ∧
      (∀ m, min_match = some m → m ≤ f.current_match_pct) ∧
      (∀ m, max_match = some m → f.current_match_pct ≤ m)) ∧
    (strategy = "smallest_first" →
      (get_candidate_batch db limit max_size max_attempts strategy library min_match max_match).Sorted
        smallestFirstLe) ∧
    (strategy = "best_match_first" →
      (get_candidate_batch db limit max_size max_attempts strategy library min_match max_match).Sorted
        bestMatchFirstLe) ∧
    (strategy ≠ "smallest_first" → strategy ≠ "best_match_first" →
      get_candidate_batch db limit max_size max_attempts strategy library min_match max_match
        = get_candidate_batch db limit max_size max_attempts "smallest_first" library min_match max_match) ∧
    (get_candidate_batch db limit max_size max_attempts strategy library min_match max_match).length
      ≤ limit := by
  refine ⟨?_, ?_, ?_, ?_, ?_⟩
  · intro f hf
    have hf2 : f ∈ db.filter (candidateFilter max_attempts max_size library min_match max_match) := by
      unfold get_candidate_batch at hf
      dsimp only at hf
      have hf3 := List.mem_of_mem_take hf
      split at hf3
      · exact (List.perm_insertionSort _ _).mem_iff.mp hf3
      · split at hf3
        · exact (List.perm_insertionSort _ _).mem_iff.mp hf3
        · exact (List.perm_insertionSort _ _).mem_iff.mp hf3
    have hcf := (List.mem_filter.mp hf2).2
    simp only [candidateFilter, Bool.and_eq_true, decide_eq_true_eq] at hcf
    obtain ⟨⟨⟨⟨⟨⟨⟨h1, h2⟩, h3⟩, h4⟩, h5⟩, h6⟩, h7⟩, h8⟩ := hcf
    refine ⟨h1, h2, h3, h4, ?_, ?_, ?_, ?_⟩
    · intro m hm; rw [hm] at h5; simpa using h5
    · intro l hl; rw [hl] at h6; simpa using h6
    · intro m hm; rw [hm] at h7; simpa using h7
    · intro m hm; rw [hm] at h8; simpa using h8
  · intro hs
    unfold get_candidate_batch
    dsimp only
    rw [if_pos hs]
    exact (List.sorted_insertionSort _ _).sublist (List.take_sublist _ _)
  · intro hs
    unfold get_candidate_batch
    dsimp only
    rw [if_neg (by rw [hs]; decide), if_pos hs]
    exact (List.sorted_insertionSort _ _).sublist (List.take_sublist _ _)
  · intro h1 h2
    unfold get_candidate_batch
    dsimp only
    rw [if_neg h1, if_neg h2, if_pos rfl]
  · unfold get_candidate_batch
    dsimp only
    exact List.length_take_le _ _

/-- Witness for C8 on a concrete three-row table (one row already
matched): both orderings are sorted, an unknown strategy reproduces the
smallest_first result, the concrete smallest_first result is the two
eligible rows in (size, address) order, and the limit holds. -/
theorem c8_witness :
    (get_candidate_batch exampleDb 2 none 3 "smallest_first" none none none).Sorted
      smallestFirstLe ∧
    (get_candidate_batch exampleDb 2 none 3 "best_match_first" none none none).Sorted
      bestMatchFirstLe ∧
    (get_candidate_batch exampleDb 2 none 3 "bogus" none none none
      = get_candidate_batch exampleDb 2 none 3 "smallest_first" none none none) ∧
    (get_candidate_batch exampleDb 2 none 3 "smallest_first" none none none
      = [exampleRowB, exampleRowA]) ∧
    (get_candidate_batch exampleDb 2 none 3 "smallest_first" none none none).length ≤ 2 :=
  ⟨(c8_candidate_selection exampleDb 2 none 3 "smallest_first" none none none).2.1 rfl,
   (c8_candidate_selection exampleDb 2 none 3 "best_match_first" none none none).2.2.1 rfl,
   (c8_candidate_selection exampleDb 2 none 3 "bogus" none none none).2.2.2.1
     (by decide) (by decide),
   by decide,
   (c8_candidate_selection exampleDb 2 none 3 "smallest_first" none none none).2.2.2.2⟩
